import Mathlib

/-!
Shallow embedding of the quiz scoring engine and the compatibility resolver
of `backend/server.py` (repository Relasi4warna), together with proofs of the
specification claims about them.

The scoring engine is the result-computing part of the `submit_quiz` handler
(server.py lines 611-650); the compatibility resolver is the pair of handlers
`get_compatibility_pair` (lines 4060-4089) and `get_compatibility_for_archetype`
(lines 4091-4123) over the static `COMPATIBILITY_MATRIX` (lines 3293-4038).
Database persistence, authentication and id generation are outside the
embedded core; the question-bank collaborator is passed in as a lookup
function, exactly as the spec's `stress_marker_lookup` describes.
-/

namespace Relasi


/-- Python's `str.lower()`: lowercase character by character (identical to
`String.toLower`, written over the character list so that it is
kernel-computable). -/
def pyLower (s : String) : String := String.mk (s.data.map Char.toLower)

/-- The four archetype names, in the insertion order of the `scores` dict of
`submit_quiz` (`{"driver": 0, "spark": 0, "anchor": 0, "analyst": 0}`), which
is also the order of the local `archetypes` list in the compatibility
handlers. -/
def archetypeNames : List String := ["driver", "spark", "anchor", "analyst"]

/-- One submitted answer: the question id and the chosen option label
(`selected_option`, the denormalized archetype tag). -/
structure Answer where
  question_id : String
  selected_option : String
deriving DecidableEq

/-- The `scores` dict of `submit_quiz`: one integer count per archetype key. -/
structure Scores where
  driver : Nat
  spark : Nat
  anchor : Nat
  analyst : Nat
deriving DecidableEq

/-- `if archetype in scores: scores[archetype] += 1` — bump the count of the
(already lowercased) label when it is one of the four dict keys, and leave
the counts unchanged otherwise (the silent-ignore fallthrough). -/
def bumpScore (s : Scores) (label : String) : Scores :=
  if label = "driver" then { s with driver := s.driver + 1 }
  else if label = "spark" then { s with spark := s.spark + 1 }
  else if label = "anchor" then { s with anchor := s.anchor + 1 }
  else if label = "analyst" then { s with analyst := s.analyst + 1 }
  else s

/-- The score-accumulation loop of `submit_quiz`:
`archetype = answer.selected_option.lower()` then conditional increment. -/
def countScores (answers : List Answer) : Scores :=
  answers.foldl (fun s a => bumpScore s (pyLower a.selected_option)) ⟨0, 0, 0, 0⟩

/-- One stress-marker check of the loop body:
`question and question.get("stress_marker_flag") and archetype == "driver"`.
The question-bank lookup (`db.questions.find_one` projected to the
`stress_marker_flag` field) is modelled as `String → Option Bool`: `none` is a
missing question, `some b` a question whose `stress_marker_flag` field is
truthy iff `b`. -/
def stressCond (qlookup : String → Option Bool) (a : Answer) : Bool :=
  match qlookup a.question_id with
  | some flag => flag && (pyLower a.selected_option == "driver")
  | none => false

/-- The `stress_markers` accumulator of `submit_quiz`. -/
def stressMarkers (qlookup : String → Option Bool) (answers : List Answer) : Nat :=
  answers.foldl (fun n a => if stressCond qlookup a then n + 1 else n) 0

/-- `scores.items()` — the key/count pairs in dict insertion order. -/
def scoreItems (s : Scores) : List (String × Nat) :=
  [("driver", s.driver), ("spark", s.spark), ("anchor", s.anchor), ("analyst", s.analyst)]

/-- `sorted(scores.items(), key=lambda x: x[1], reverse=True)`. Python's sort
is stable, and with `reverse=True` elements with equal keys still keep their
original (dict insertion) order; `List.insertionSort` with the reflexive
comparison `y.2 ≤ x.2` places each element before the already-sorted later
elements of equal count, which is exactly that behaviour. -/
def sortedScores (s : Scores) : List (String × Nat) :=
  (scoreItems s).insertionSort (fun x y => y.2 ≤ x.2)

/-- `sorted_scores[0][0]` (total: the list always has four elements, so the
default of `getD` is never reached). -/
def primaryOf (s : Scores) : String := ((sortedScores s).getD 0 ("", 0)).1

/-- `sorted_scores[1][0]`. -/
def secondaryOf (s : Scores) : String := ((sortedScores s).getD 1 ("", 0)).1

/-- `max(scores.values())`. -/
def maxScore (s : Scores) : Nat := max (max (max s.driver s.spark) s.anchor) s.analyst

/-- `min(scores.values())`. -/
def minScore (s : Scores) : Nat := min (min (min s.driver s.spark) s.anchor) s.analyst

/-- Round a rational to the nearest integer, halves to even — the rounding
mode of Python's builtin `round`. -/
def roundHalfEven (q : ℚ) : ℤ :=
  if q - ⌊q⌋ < 1/2 then ⌊q⌋
  else if (1 : ℚ)/2 < q - ⌊q⌋ then ⌊q⌋ + 1
  else if ⌊q⌋ % 2 = 0 then ⌊q⌋ else ⌊q⌋ + 1

/-- `round(x, 2)` — two decimal digits, modelled exactly on rationals. -/
def pyRound2 (q : ℚ) : ℚ := (roundHalfEven (q * 100) : ℚ) / 100

/-- The fields of the result document computed by `submit_quiz` that the
scoring spec talks about (ids, timestamps and the `is_paid` flag are
persistence concerns outside the core). -/
structure QuizResult where
  primary_archetype : String
  secondary_archetype : String
  scores : Scores
  balance_index : ℚ
  stress_flag : Bool
deriving DecidableEq

/-- The scoring engine: the computation performed by `submit_quiz` on the
submitted answers (server.py lines 611-650).
`total_questions = len(data.answers) or 1` — Python's `or` substitutes `1`
exactly when the length is the falsy `0`. -/
def submitQuizResult (qlookup : String → Option Bool) (answers : List Answer) : QuizResult :=
  let scores := countScores answers
  let total_questions : Nat := if answers.length = 0 then 1 else answers.length
  { primary_archetype := primaryOf scores
    secondary_archetype := secondaryOf scores
    scores := scores
    balance_index :=
      pyRound2 (((maxScore scores : ℚ) - (minScore scores : ℚ)) / (total_questions : ℚ))
    stress_flag := decide (3 ≤ stressMarkers qlookup answers) }

/-- One record of the static `COMPATIBILITY_MATRIX` (server.py lines
3293-4038), restricted to the fields the specification claims are about.
The remaining narrative fields (`strengths_id/en`, `challenges_id/en`,
`tips_id/en` — string lists present for both languages in every record) are
not referenced by any claim and are omitted from the embedding. -/
structure CompatEntry where
  compatibility_score : Nat
  energy : String
  title_id : String
  title_en : String
  summary_id : String
  summary_en : String
deriving DecidableEq

/-- The static `COMPATIBILITY_MATRIX`: sixteen ordered-pair keys, in source
order (the ten "canonical" combinations first, then the six reversed
cross-pair duplicates). -/
def COMPATIBILITY_MATRIX : List (String × CompatEntry) := [
  ("driver_driver", ⟨65, "high", "Duo Dinamis", "Dynamic Duo",
    "Dua Driver bersama menciptakan energi tinggi dan momentum luar biasa. Keduanya fokus pada hasil dan efisiensi.",
    "Two Drivers together create high energy and incredible momentum. Both are focused on results and efficiency."⟩),
  ("driver_spark", ⟨85, "very_high", "Pemimpin & Inspirator", "Leader & Inspirer",
    "Kombinasi yang sangat dinamis! Driver memberikan arah dan struktur, sementara Spark membawa energi, kreativitas, dan antusiasme.",
    "A highly dynamic combination! Driver provides direction and structure, while Spark brings energy, creativity, and enthusiasm."⟩),
  ("driver_anchor", ⟨75, "balanced", "Aksi & Stabilitas", "Action & Stability",
    "Driver yang berorientasi hasil bertemu Anchor yang menjaga harmoni. Kombinasi yang seimbang antara progress dan stabilitas.",
    "Results-oriented Driver meets harmony-keeping Anchor. A balanced combination of progress and stability."⟩),
  ("driver_analyst", ⟨70, "focused", "Eksekutor & Strategis", "Executor & Strategist",
    "Driver ingin bertindak cepat, Analyst ingin menganalisis dulu. Jika dikelola dengan baik, menghasilkan keputusan yang cepat DAN tepat.",
    "Driver wants quick action, Analyst wants to analyze first. If managed well, produces decisions that are both fast AND accurate."⟩),
  ("spark_spark", ⟨75, "explosive", "Festival Ide", "Idea Festival",
    "Dua Spark bersama menciptakan ledakan kreativitas dan kegembiraan! Penuh ide brilian, tapi mungkin kesulitan menuntaskan.",
    "Two Sparks together create an explosion of creativity and joy! Full of brilliant ideas, but may struggle to complete them."⟩),
  ("spark_anchor", ⟨90, "harmonious", "Kegembiraan & Kehangatan", "Joy & Warmth",
    "Kombinasi yang sangat harmonis! Spark membawa kegembiraan dan spontanitas, Anchor memberikan kehangatan dan stabilitas emosional.",
    "A very harmonious combination! Spark brings joy and spontaneity, Anchor provides warmth and emotional stability."⟩),
  ("spark_analyst", ⟨60, "contrasting", "Kreativitas & Logika", "Creativity & Logic",
    "Kombinasi yang kontras tapi bisa sangat produktif! Spark membawa ide out-of-the-box, Analyst membantu mewujudkannya dengan sistematis.",
    "A contrasting but potentially very productive combination! Spark brings out-of-the-box ideas, Analyst helps realize them systematically."⟩),
  ("anchor_anchor", ⟨80, "peaceful", "Pelabuhan Tenang", "Peaceful Harbor",
    "Dua Anchor menciptakan lingkungan yang sangat stabil, damai, dan penuh dukungan. Hubungan yang dalam dan tulus.",
    "Two Anchors create a very stable, peaceful, and supportive environment. A deep and sincere relationship."⟩),
  ("anchor_analyst", ⟨70, "thoughtful", "Hati & Pikiran", "Heart & Mind",
    "Anchor membawa kehangatan emosional, Analyst membawa kejelasan rasional. Kombinasi yang seimbang jika dikomunikasikan dengan baik.",
    "Anchor brings emotional warmth, Analyst brings rational clarity. A balanced combination if communicated well."⟩),
  ("analyst_analyst", ⟨75, "intellectual", "Pikiran Ganda", "Double Minds",
    "Dua Analyst bersama menciptakan kemitraan yang sangat rasional dan terstruktur. Percakapan yang dalam dan bermakna.",
    "Two Analysts together create a very rational and structured partnership. Deep and meaningful conversations."⟩),
  ("spark_driver", ⟨85, "very_high", "Inspirator & Pemimpin", "Inspirer & Leader",
    "Kombinasi yang sangat dinamis! Spark membawa kreativitas dan energi, sementara Driver memberikan arah dan eksekusi.",
    "A highly dynamic combination! Spark brings creativity and energy, while Driver provides direction and execution."⟩),
  ("anchor_driver", ⟨75, "balanced", "Stabilitas & Aksi", "Stability & Action",
    "Anchor yang menjaga harmoni bertemu Driver yang berorientasi hasil. Kombinasi yang menyeimbangkan kecepatan dan stabilitas.",
    "Harmony-keeping Anchor meets results-oriented Driver. A combination that balances speed and stability."⟩),
  ("analyst_driver", ⟨70, "focused", "Strategis & Eksekutor", "Strategist & Executor",
    "Analyst ingin menganalisis, Driver ingin bertindak. Kombinasi yang kuat untuk keputusan cepat berbasis data.",
    "Analyst wants to analyze, Driver wants to act. A strong combination for fast data-based decisions."⟩),
  ("anchor_spark", ⟨90, "harmonious", "Kehangatan & Kegembiraan", "Warmth & Joy",
    "Kombinasi yang sangat harmonis! Anchor memberikan stabilitas dan kehangatan, Spark membawa kegembiraan dan petualangan.",
    "A very harmonious combination! Anchor provides stability and warmth, Spark brings joy and adventure."⟩),
  ("analyst_spark", ⟨60, "contrasting", "Logika & Kreativitas", "Logic & Creativity",
    "Kombinasi yang sangat kontras! Analyst yang sistematis bertemu Spark yang bebas. Potensi besar jika saling menghormati.",
    "A very contrasting combination! Systematic Analyst meets free-spirited Spark. Great potential if mutually respectful."⟩),
  ("analyst_anchor", ⟨70, "thoughtful", "Pikiran & Hati", "Mind & Heart",
    "Analyst yang rasional bertemu Anchor yang emosional. Keseimbangan yang baik jika bisa saling memahami bahasa masing-masing.",
    "Rational Analyst meets emotional Anchor. A good balance if they can understand each other\x27s language."⟩)]

/-- `data[f"title_{language}"]` — defined for the two languages the records
carry, `none` modelling the `KeyError` raised for any other language. -/
def titleFor (e : CompatEntry) (language : String) : Option String :=
  if language = "id" then some e.title_id
  else if language = "en" then some e.title_en
  else none

/-- `data[f"summary_{language}"]`. -/
def summaryFor (e : CompatEntry) (language : String) : Option String :=
  if language = "id" then some e.summary_id
  else if language = "en" then some e.summary_en
  else none

/-- The error outcomes of the compatibility handlers: `notFound` is
`HTTPException(status_code=404, detail=...)`, `invalidArgument` is
`HTTPException(status_code=400, detail=...)`, and `keyError` is the Python
`KeyError` escaping from a `data[f"..._{language}"]` access for an
unsupported language. -/
inductive ApiError where
  | notFound (detail : String)
  | invalidArgument (detail : String)
  | keyError
deriving DecidableEq

/-- The response of `get_compatibility_pair` (the narrative-list fields are
omitted along with their `CompatEntry` sources). -/
structure PairView where
  pair : String
  archetype1 : String
  archetype2 : String
  compatibility_score : Nat
  energy : String
  title : String
  summary : String
deriving DecidableEq

/-- `get_compatibility_pair` (server.py lines 4060-4089): lowercase both
arguments, try the key `arch1_arch2`, then the reversed key, 404 if neither
is present; project the record into the requested language. -/
def getCompatibilityPair (arch1 arch2 language : String) : Except ApiError PairView :=
  let a1 := pyLower arch1
  let a2 := pyLower arch2
  let entry? :=
    match List.lookup (a1 ++ "_" ++ a2) COMPATIBILITY_MATRIX with
    | some data => some data
    | none => List.lookup (a2 ++ "_" ++ a1) COMPATIBILITY_MATRIX
  match entry? with
  | none => .error (.notFound "Compatibility pair not found")
  | some data =>
    match titleFor data language, summaryFor data language with
    | some t, some s =>
      .ok { pair := a1 ++ "_" ++ a2, archetype1 := a1, archetype2 := a2,
            compatibility_score := data.compatibility_score, energy := data.energy,
            title := t, summary := s }
    | _, _ => .error .keyError

/-- One element of the `compatibilities` list built by
`get_compatibility_for_archetype`. -/
structure RankEntry where
  with_archetype : String
  compatibility_score : Nat
  energy : String
  title : String
  summary : String
deriving DecidableEq

/-- One iteration of the loop of `get_compatibility_for_archetype`: try the
key `archetype_other`, fall back to `other_archetype`; append an entry when
the key resolves (`ok none` is the silent skip of a missing key, which never
happens for the shipped matrix), propagating the `KeyError` of an
unsupported language. -/
def rankEntry (a other language : String) : Except ApiError (Option RankEntry) :=
  let key :=
    if (List.lookup (a ++ "_" ++ other) COMPATIBILITY_MATRIX).isSome
    then a ++ "_" ++ other else other ++ "_" ++ a
  match List.lookup key COMPATIBILITY_MATRIX with
  | none => .ok none
  | some data =>
    match titleFor data language, summaryFor data language with
    | some t, some s =>
      .ok (some { with_archetype := other,
                  compatibility_score := data.compatibility_score,
                  energy := data.energy, title := t, summary := s })
    | _, _ => .error .keyError

/-- The `for other_arch in archetypes` loop, left to right. -/
def buildRankEntries (a language : String) : List String → Except ApiError (List RankEntry)
  | [] => .ok []
  | other :: rest => do
    let e? ← rankEntry a other language
    let res ← buildRankEntries a language rest
    match e? with
    | some e => .ok (e :: res)
    | none => .ok res

/-- The response of `get_compatibility_for_archetype`. -/
structure RankResult where
  archetype : String
  compatibilities : List RankEntry
deriving DecidableEq

/-- `get_compatibility_for_archetype` (server.py lines 4091-4123): lowercase,
reject non-archetypes with a 400, gather the four entries, then
`compatibilities.sort(key=lambda x: x["compatibility_score"], reverse=True)`
— a stable descending sort, modelled like `sortedScores`. -/
def getCompatibilityForArchetype (archetype language : String) : Except ApiError RankResult :=
  let a := pyLower archetype
  if a ∈ archetypeNames then
    match buildRankEntries a language archetypeNames with
    | .error err => .error err
    | .ok entries =>
      .ok { archetype := a
            compatibilities :=
              entries.insertionSort (fun x y => y.compatibility_score ≤ x.compatibility_score) }
  else .error (.invalidArgument "Invalid archetype")


/-- The dict read `scores[name]` (0 for a non-key, a case that never arises). -/
def getCount (s : Scores) (name : String) : Nat :=
  if name = "driver" then s.driver else if name = "spark" then s.spark
  else if name = "anchor" then s.anchor else if name = "analyst" then s.analyst else 0

/-- Position of an archetype name in the fixed tie-break order
driver, spark, anchor, analyst (4 for a non-archetype). -/
def archRank (name : String) : Nat :=
  if name = "driver" then 0 else if name = "spark" then 1
  else if name = "anchor" then 2 else if name = "analyst" then 3 else 4

/-- The comparison used by both stable descending sorts of the source. -/
def descByCount (x y : String × Nat) : Prop := y.2 ≤ x.2

instance : DecidableRel descByCount := fun x y => inferInstanceAs (Decidable (y.2 ≤ x.2))
instance : IsTotal (String × Nat) descByCount := ⟨fun x y => le_total y.2 x.2⟩
instance : IsTrans (String × Nat) descByCount := ⟨fun _ _ _ h1 h2 => le_trans h2 h1⟩

/-- The per-answer condition the claim describes: the associated question
exists with a true `stress_marker_flag`, and the lowercased selected option
is "driver". -/
def stressAnswer (qlookup : String → Option Bool) (a : Answer) : Bool :=
  (qlookup a.question_id == some true) && (pyLower a.selected_option == "driver")

/-- The balance index as the claim words it (for comparison with the code):
the denominator is the number of answers *actually scored* — those whose
lowercased label is one of the four archetypes — floored at 1. -/
def claimedBalanceIndex (answers : List Answer) : ℚ :=
  let s := countScores answers
  let scored := (answers.filter (fun a => decide (pyLower a.selected_option ∈ archetypeNames))).length
  pyRound2 (((maxScore s : ℚ) - (minScore s : ℚ)) / ((if scored = 0 then 1 else scored : Nat) : ℚ))

/-- Projection of a pair lookup onto its compatibility score (`none` when the
lookup fails). -/
def pairScore (a b lang : String) : Option Nat :=
  match getCompatibilityPair a b lang with
  | .ok v => some v.compatibility_score
  | .error _ => none

/-- Projection of a pair lookup onto its energy label. -/
def pairEnergy (a b lang : String) : Option String :=
  match getCompatibilityPair a b lang with
  | .ok v => some v.energy
  | .error _ => none

/-- Whether a handler call succeeded. -/
def isOkE {α : Type} (r : Except ApiError α) : Bool :=
  match r with
  | .ok _ => true
  | .error _ => false

/-- The supported report languages: every matrix record carries `_id` and
`_en` narrative fields. -/
def supportedLanguages : List String := ["id", "en"]

/-- The entry list returned by the ranking handler (empty on error). -/
def rankEntries (a lang : String) : List RankEntry :=
  match getCompatibilityForArchetype a lang with
  | .ok r => r.compatibilities
  | .error _ => []

/-- Descending score order with ties broken by the fixed archetype order:
what the claim asserts of the ranking output. -/
def rankLex (x y : RankEntry) : Prop :=
  y.compatibility_score < x.compatibility_score ∨
    (x.compatibility_score = y.compatibility_score ∧
      archRank x.with_archetype < archRank y.with_archetype)

instance : DecidableRel rankLex := fun _ _ =>
  inferInstanceAs (Decidable (_ ∨ (_ ∧ _)))

deriving instance DecidableEq for Except

lemma sortedScores_def (s : Scores) :
    sortedScores s = (scoreItems s).insertionSort descByCount := rfl

lemma mem_scoreItems {s : Scores} {x : String × Nat} :
    x ∈ scoreItems s ↔ x = ("driver", s.driver) ∨ x = ("spark", s.spark) ∨
      x = ("anchor", s.anchor) ∨ x = ("analyst", s.analyst) := by
  simp [scoreItems]

lemma scoreItems_nodup (s : Scores) : (scoreItems s).Nodup := by
  simp [scoreItems, Prod.ext_iff]

lemma sortedScores_perm (s : Scores) : List.Perm (sortedScores s) (scoreItems s) :=
  List.perm_insertionSort _ _

lemma sortedScores_sorted (s : Scores) : List.Sorted descByCount (sortedScores s) :=
  List.sorted_insertionSort _ _

lemma sortedScores_nodup (s : Scores) : (sortedScores s).Nodup :=
  (sortedScores_perm s).symm.nodup (scoreItems_nodup s)

lemma items_rank_sublist (s : Scores) {x y : String × Nat}
    (hx : x ∈ scoreItems s) (hy : y ∈ scoreItems s)
    (hxy : archRank x.1 < archRank y.1) : List.Sublist [x, y] (scoreItems s) := by
  rw [mem_scoreItems] at hx hy
  rcases hx with rfl | rfl | rfl | rfl <;> rcases hy with rfl | rfl | rfl | rfl <;>
    simp only [scoreItems] <;>
    first
      | exact .cons₂ _ (.cons₂ _ (List.nil_sublist _))
      | exact .cons₂ _ (.cons _ (.cons₂ _ (List.nil_sublist _)))
      | exact .cons₂ _ (.cons _ (.cons _ (.cons₂ _ (List.nil_sublist _))))
      | exact .cons _ (.cons₂ _ (.cons₂ _ (List.nil_sublist _)))
      | exact .cons _ (.cons₂ _ (.cons _ (.cons₂ _ (List.nil_sublist _))))
      | exact .cons _ (.cons _ (.cons₂ _ (.cons₂ _ (List.nil_sublist _))))
      | (exfalso; simp [archRank] at hxy)

lemma not_pair_sublist_head {α : Type} {a b : α} {l : List α}
    (hnd : (a :: l).Nodup) : ¬ List.Sublist [b, a] (a :: l) := by
  intro h
  rcases List.nodup_cons.mp hnd with ⟨hna, _⟩
  cases h with
  | cons _ h' => exact hna (h'.subset (by simp))
  | cons₂ _ h' => exact hna (h'.subset (by simp))


lemma items_name {s : Scores} {x : String × Nat} (h : x ∈ scoreItems s) :
    x.1 ∈ archetypeNames ∧ x.2 = getCount s x.1 := by
  rcases mem_scoreItems.mp h with rfl | rfl | rfl | rfl <;>
    simp [archetypeNames, getCount]

lemma name_item {s : Scores} {name : String} (h : name ∈ archetypeNames) :
    (name, getCount s name) ∈ scoreItems s := by
  simp only [archetypeNames, List.mem_cons, List.not_mem_nil, or_false] at h
  rcases h with rfl | rfl | rfl | rfl <;> simp [scoreItems, getCount]

lemma items_inj {s : Scores} {x y : String × Nat}
    (hx : x ∈ scoreItems s) (hy : y ∈ scoreItems s) (h : x.1 = y.1) : x = y := by
  rcases mem_scoreItems.mp hx with rfl | rfl | rfl | rfl <;>
    rcases mem_scoreItems.mp hy with rfl | rfl | rfl | rfl <;> simp_all

lemma sortedScores_four (s : Scores) :
    ∃ x0 x1 x2 x3, sortedScores s = [x0, x1, x2, x3] := by
  have hlen : (sortedScores s).length = 4 := by
    rw [sortedScores_def]
    rw [List.length_insertionSort]
    rfl
  rcases hl : sortedScores s with _ | ⟨x0, _ | ⟨x1, _ | ⟨x2, _ | ⟨x3, _ | _⟩⟩⟩⟩ <;>
    rw [hl] at hlen <;> simp_all

lemma primarySecondary_spec (s : Scores) :
    primaryOf s ∈ archetypeNames ∧ secondaryOf s ∈ archetypeNames ∧
    primaryOf s ≠ secondaryOf s ∧
    (∀ name ∈ archetypeNames,
      getCount s name ≤ getCount s (primaryOf s) ∧
      (getCount s name = getCount s (primaryOf s) → archRank (primaryOf s) ≤ archRank name)) ∧
    (∀ name ∈ archetypeNames, name ≠ primaryOf s →
      getCount s name ≤ getCount s (secondaryOf s) ∧
      (getCount s name = getCount s (secondaryOf s) → archRank (secondaryOf s) ≤ archRank name)) := by
  obtain ⟨x0, x1, x2, x3, hl⟩ := sortedScores_four s
  have hperm := sortedScores_perm s
  have hsort := sortedScores_sorted s
  have hnd := sortedScores_nodup s
  rw [hl] at hperm hsort hnd
  have hp : primaryOf s = x0.1 := by simp [primaryOf, hl]
  have hq : secondaryOf s = x1.1 := by simp [secondaryOf, hl]
  have hx0i : x0 ∈ scoreItems s := hperm.subset (by simp)
  have hx1i : x1 ∈ scoreItems s := hperm.subset (by simp)
  have hx0n := items_name hx0i
  have hx1n := items_name hx1i
  have hne01 : x0 ≠ x1 := by
    intro h; rw [h] at hnd; exact (List.nodup_cons.mp hnd).1 (by simp)
  have hname01 : x0.1 ≠ x1.1 := fun h => hne01 (items_inj hx0i hx1i h)
  -- an item with a strictly smaller rank than x0 and at least its count contradicts x0 being head
  have head_rank : ∀ x ∈ scoreItems s, x.2 = x0.2 → archRank x0.1 ≤ archRank x.1 := by
    intro x hx hcnt
    rcases le_or_lt (archRank x0.1) (archRank x.1) with h | h
    · exact h
    · exfalso
      have hsub := items_rank_sublist s hx hx0i h
      have hstab := List.pair_sublist_insertionSort (r := descByCount)
        (by simp [descByCount, hcnt]) hsub
      rw [← sortedScores_def, hl] at hstab
      exact not_pair_sublist_head hnd hstab
  have second_rank : ∀ x ∈ scoreItems s, x ≠ x0 → x.2 = x1.2 → archRank x1.1 ≤ archRank x.1 := by
    intro x hx hne hcnt
    rcases le_or_lt (archRank x1.1) (archRank x.1) with h | h
    · exact h
    · exfalso
      have hsub := items_rank_sublist s hx hx1i h
      have hstab := List.pair_sublist_insertionSort (r := descByCount)
        (by simp [descByCount, hcnt]) hsub
      rw [← sortedScores_def, hl] at hstab
      cases hstab with
      | cons₂ _ h' => exact hne rfl
      | cons _ h' => exact not_pair_sublist_head (List.Nodup.of_cons hnd) h'
  have mem_sorted : ∀ x ∈ scoreItems s, x = x0 ∨ x = x1 ∨ x = x2 ∨ x = x3 := by
    intro x hx
    have : x ∈ [x0, x1, x2, x3] := hperm.mem_iff.mpr hx
    simpa using this
  have count_le_head : ∀ x ∈ scoreItems s, x.2 ≤ x0.2 := by
    intro x hx
    rcases mem_sorted x hx with rfl | rfl | rfl | rfl
    · exact le_refl _
    all_goals exact List.rel_of_sorted_cons hsort _ (by simp)
  have count_le_second : ∀ x ∈ scoreItems s, x ≠ x0 → x.2 ≤ x1.2 := by
    intro x hx hne
    rcases mem_sorted x hx with rfl | rfl | rfl | rfl
    · exact absurd rfl hne
    · exact le_refl _
    all_goals exact List.rel_of_sorted_cons hsort.of_cons _ (by simp)
  refine ⟨hp ▸ hx0n.1, hq ▸ hx1n.1, by rw [hp, hq]; exact hname01, ?_, ?_⟩
  · intro name hname
    have hitem := name_item (s := s) hname
    constructor
    · have := count_le_head _ hitem
      simpa [hp, ← hx0n.2] using this
    · intro hcnt
      rw [hp]
      have : ((name, getCount s name) : String × Nat).2 = x0.2 := by
        simp [hcnt, hp, ← hx0n.2]
      simpa using head_rank _ hitem this
  · intro name hname hnep
    have hitem := name_item (s := s) hname
    have hnex0 : ((name, getCount s name) : String × Nat) ≠ x0 := by
      intro h
      exact hnep (by rw [hp, ← h])
    constructor
    · have := count_le_second _ hitem hnex0
      simpa [hq, ← hx1n.2] using this
    · intro hcnt
      rw [hq]
      have : ((name, getCount s name) : String × Nat).2 = x1.2 := by
        simp [hcnt, hq, ← hx1n.2]
      simpa using second_rank _ hitem hnex0 this


lemma foldl_count_eq {c : Answer → Bool} :
    ∀ (l : List Answer) (k : Nat),
      l.foldl (fun n a => if c a then n + 1 else n) k = k + (l.filter c).length
  | [], k => by simp
  | a :: l, k => by
    by_cases h : c a
    · simp [h, foldl_count_eq l]
      omega
    · simp [h, foldl_count_eq l]

lemma stressMarkers_eq_filter (ql : String → Option Bool) (answers : List Answer) :
    stressMarkers ql answers = (answers.filter (stressCond ql)).length := by
  simpa using foldl_count_eq answers 0

lemma stressCond_eq (ql : String → Option Bool) (a : Answer) :
    stressCond ql a =
      ((ql a.question_id == some true) && (pyLower a.selected_option == "driver")) := by
  unfold stressCond
  cases h : ql a.question_id with
  | none => simp [h]
  | some flag => cases flag <;> simp [h]

lemma bumpScore_not_mem {label : String} (h : label ∉ archetypeNames) (s : Scores) :
    bumpScore s label = s := by
  simp only [archetypeNames, List.mem_cons, List.not_mem_nil, or_false, not_or] at h
  simp [bumpScore, h.1, h.2.1, h.2.2.1, h.2.2.2]

lemma stressCond_not_mem {a : Answer} (h : pyLower a.selected_option ∉ archetypeNames)
    (ql : String → Option Bool) : stressCond ql a = false := by
  simp only [archetypeNames, List.mem_cons, List.not_mem_nil, or_false, not_or] at h
  rw [stressCond_eq]
  simp [h.1]

lemma submit_scores (ql : String → Option Bool) (answers : List Answer) :
    (submitQuizResult ql answers).scores = countScores answers := rfl

lemma submit_primary (ql : String → Option Bool) (answers : List Answer) :
    (submitQuizResult ql answers).primary_archetype = primaryOf (countScores answers) := rfl

lemma submit_secondary (ql : String → Option Bool) (answers : List Answer) :
    (submitQuizResult ql answers).secondary_archetype = secondaryOf (countScores answers) := rfl

lemma submit_stress (ql : String → Option Bool) (answers : List Answer) :
    (submitQuizResult ql answers).stress_flag = decide (3 ≤ stressMarkers ql answers) := rfl

lemma submit_balance (ql : String → Option Bool) (answers : List Answer) :
    (submitQuizResult ql answers).balance_index =
      pyRound2 (((maxScore (countScores answers) : ℚ) - (minScore (countScores answers) : ℚ)) /
        ((if answers.length = 0 then 1 else answers.length : Nat) : ℚ)) := rfl

/-- C7: scoring an empty answer list does not fail and produces the degenerate
result: all four counts 0, balance index 0, no stress flag, and primary
"driver", secondary "spark" — the first two names of the fixed tie-break
order. -/
theorem empty_answers_degenerate (qlookup : String → Option Bool) :
    (submitQuizResult qlookup []).scores = ⟨0, 0, 0, 0⟩ ∧
    (submitQuizResult qlookup []).balance_index = 0 ∧
    (submitQuizResult qlookup []).stress_flag = false ∧
    (submitQuizResult qlookup []).primary_archetype = "driver" ∧
    (submitQuizResult qlookup []).secondary_archetype = "spark" := by
  refine ⟨rfl, ?_, rfl, rfl, rfl⟩
  rw [submit_balance]
  norm_num [countScores, maxScore, minScore, pyRound2, roundHalfEven]

/-- C10: for every sequence of answers the quiz result's primary and
secondary archetypes are two distinct members of the four-archetype set. -/
theorem primary_ne_secondary (qlookup : String → Option Bool) (answers : List Answer) :
    (submitQuizResult qlookup answers).primary_archetype ≠
      (submitQuizResult qlookup answers).secondary_archetype ∧
    (submitQuizResult qlookup answers).primary_archetype ∈ archetypeNames ∧
    (submitQuizResult qlookup answers).secondary_archetype ∈ archetypeNames := by
  obtain ⟨h1, h2, h3, _, _⟩ := primarySecondary_spec (countScores answers)
  exact ⟨h3, h1, h2⟩

/-- C2: primary and secondary are always chosen by count with ties broken by
the fixed total order driver, spark, anchor, analyst (the dict insertion
order): every archetype's count is at most the primary's, an archetype tying
the primary's count ranks no earlier than the primary, and the same holds for
the secondary among the archetypes other than the primary; in particular
2 driver + 2 spark answers give scores (2,2,0,0), primary driver, secondary
spark. -/
theorem tie_break_fixed_order :
    (∀ (qlookup : String → Option Bool) (answers : List Answer),
      ∀ name ∈ archetypeNames,
        (getCount (submitQuizResult qlookup answers).scores name ≤
          getCount (submitQuizResult qlookup answers).scores
            (submitQuizResult qlookup answers).primary_archetype ∧
         (getCount (submitQuizResult qlookup answers).scores name =
            getCount (submitQuizResult qlookup answers).scores
              (submitQuizResult qlookup answers).primary_archetype →
          archRank (submitQuizResult qlookup answers).primary_archetype ≤ archRank name)) ∧
        (name ≠ (submitQuizResult qlookup answers).primary_archetype →
          getCount (submitQuizResult qlookup answers).scores name ≤
            getCount (submitQuizResult qlookup answers).scores
              (submitQuizResult qlookup answers).secondary_archetype ∧
          (getCount (submitQuizResult qlookup answers).scores name =
             getCount (submitQuizResult qlookup answers).scores
               (submitQuizResult qlookup answers).secondary_archetype →
           archRank (submitQuizResult qlookup answers).secondary_archetype ≤ archRank name))) ∧
    (submitQuizResult (fun _ => none)
        [⟨"q1", "driver"⟩, ⟨"q2", "driver"⟩, ⟨"q3", "spark"⟩, ⟨"q4", "spark"⟩]).scores =
      ⟨2, 2, 0, 0⟩ ∧
    (submitQuizResult (fun _ => none)
        [⟨"q1", "driver"⟩, ⟨"q2", "driver"⟩, ⟨"q3", "spark"⟩, ⟨"q4", "spark"⟩]).primary_archetype =
      "driver" ∧
    (submitQuizResult (fun _ => none)
        [⟨"q1", "driver"⟩, ⟨"q2", "driver"⟩, ⟨"q3", "spark"⟩, ⟨"q4", "spark"⟩]).secondary_archetype =
      "spark" := by
  refine ⟨?_, by decide, by decide, by decide⟩
  intro qlookup answers name hname
  obtain ⟨_, _, _, h4, h5⟩ := primarySecondary_spec (countScores answers)
  exact ⟨h4 name hname, h5 name hname⟩

/-- Witness for C2 at a concrete tied input: with 2 driver and 2 spark
answers, spark's count equals driver's (the primary), and driver indeed
ranks no later than spark. -/
theorem tie_break_fixed_order_witness :
    getCount (submitQuizResult (fun _ => none)
        [⟨"q1", "driver"⟩, ⟨"q2", "driver"⟩, ⟨"q3", "spark"⟩, ⟨"q4", "spark"⟩]).scores "spark" ≤
      getCount (submitQuizResult (fun _ => none)
        [⟨"q1", "driver"⟩, ⟨"q2", "driver"⟩, ⟨"q3", "spark"⟩, ⟨"q4", "spark"⟩]).scores
        (submitQuizResult (fun _ => none)
        [⟨"q1", "driver"⟩, ⟨"q2", "driver"⟩, ⟨"q3", "spark"⟩, ⟨"q4", "spark"⟩]).primary_archetype :=
  ((tie_break_fixed_order.1 (fun _ => none)
    [⟨"q1", "driver"⟩, ⟨"q2", "driver"⟩, ⟨"q3", "spark"⟩, ⟨"q4", "spark"⟩]
    "spark" (by decide)).1).1

/-- C3: the stress flag is set iff at least 3 answers are stress-marker
driver answers; with 2 or fewer it is false. -/
theorem stress_flag_threshold (qlookup : String → Option Bool) (answers : List Answer) :
    ((submitQuizResult qlookup answers).stress_flag = true ↔
      3 ≤ (answers.filter (stressAnswer qlookup)).length) ∧
    ((answers.filter (stressAnswer qlookup)).length ≤ 2 →
      (submitQuizResult qlookup answers).stress_flag = false) := by
  have hfilter : answers.filter (stressCond qlookup) = answers.filter (stressAnswer qlookup) := by
    apply List.filter_congr
    intro a _
    rw [stressCond_eq]
    rfl
  rw [submit_stress, stressMarkers_eq_filter, hfilter]
  constructor
  · simp
  · intro h
    simp
    omega

/-- Witness for C3: three stress-marked driver answers set the flag, and the
two-answer prefix does not. -/
theorem stress_flag_threshold_witness :
    (submitQuizResult (fun _ => some true)
        [⟨"q1", "driver"⟩, ⟨"q2", "driver"⟩, ⟨"q3", "driver"⟩]).stress_flag = true ∧
    (submitQuizResult (fun _ => some true)
        [⟨"q1", "driver"⟩, ⟨"q2", "driver"⟩]).stress_flag = false :=
  ⟨(stress_flag_threshold (fun _ => some true)
      [⟨"q1", "driver"⟩, ⟨"q2", "driver"⟩, ⟨"q3", "driver"⟩]).1.mpr (by decide),
   (stress_flag_threshold (fun _ => some true)
      [⟨"q1", "driver"⟩, ⟨"q2", "driver"⟩]).2 (by decide)⟩

/-- C8: an answer whose lowercased label is not one of the four archetypes
contributes nothing: inserted at any position, it leaves every archetype
count and the stress-marker counter unchanged (and scoring is total — no
error is raised). -/
theorem unrecognized_label_ignored (qlookup : String → Option Bool)
    (l1 l2 : List Answer) (a : Answer) (h : pyLower a.selected_option ∉ archetypeNames) :
    countScores (l1 ++ a :: l2) = countScores (l1 ++ l2) ∧
    stressMarkers qlookup (l1 ++ a :: l2) = stressMarkers qlookup (l1 ++ l2) := by
  constructor
  · unfold countScores
    rw [List.foldl_append, List.foldl_append, List.foldl_cons, bumpScore_not_mem h]
  · unfold stressMarkers
    rw [List.foldl_append, List.foldl_append, List.foldl_cons, stressCond_not_mem h qlookup]
    simp

/-- Witness for C8: a "Maybe" answer in the middle of two driver answers
changes neither the counts nor the stress counter. -/
theorem unrecognized_label_ignored_witness :
    countScores [⟨"q1", "driver"⟩, ⟨"qx", "Maybe"⟩, ⟨"q2", "driver"⟩] =
      countScores [⟨"q1", "driver"⟩, ⟨"q2", "driver"⟩] ∧
    stressMarkers (fun _ => some true) [⟨"q1", "driver"⟩, ⟨"qx", "Maybe"⟩, ⟨"q2", "driver"⟩] =
      stressMarkers (fun _ => some true) [⟨"q1", "driver"⟩, ⟨"q2", "driver"⟩] :=
  unrecognized_label_ignored (fun _ => some true)
    [⟨"q1", "driver"⟩] [⟨"q2", "driver"⟩] ⟨"qx", "Maybe"⟩ (by decide)

/-- Counterexample to C1: with one driver answer and one unrecognized
answer, the code divides by 2 (all submitted answers) and yields 0.5, while
the claimed scored-answer denominator (1) would yield 1. -/
theorem balance_denominator_counterexample :
    (submitQuizResult (fun _ => none) [⟨"q1", "driver"⟩, ⟨"q2", "mystery"⟩]).balance_index
      = 1/2 ∧
    claimedBalanceIndex [⟨"q1", "driver"⟩, ⟨"q2", "mystery"⟩] = 1 ∧
    (submitQuizResult (fun _ => none) [⟨"q1", "driver"⟩, ⟨"q2", "mystery"⟩]).balance_index ≠
      claimedBalanceIndex [⟨"q1", "driver"⟩, ⟨"q2", "mystery"⟩] := by
  have hc : countScores [⟨"q1", "driver"⟩, ⟨"q2", "mystery"⟩] = ⟨1, 0, 0, 0⟩ := by decide
  have hs : (([⟨"q1", "driver"⟩, ⟨"q2", "mystery"⟩] : List Answer).filter
      (fun a => decide (pyLower a.selected_option ∈ archetypeNames))).length = 1 := by decide
  have h1 : (submitQuizResult (fun _ => none) [⟨"q1", "driver"⟩, ⟨"q2", "mystery"⟩]).balance_index
      = 1/2 := by
    rw [submit_balance, hc]
    norm_num [maxScore, minScore, pyRound2, roundHalfEven]
  have h2 : claimedBalanceIndex [⟨"q1", "driver"⟩, ⟨"q2", "mystery"⟩] = 1 := by
    simp only [claimedBalanceIndex, hc, hs]
    norm_num [maxScore, minScore, pyRound2, roundHalfEven]
  refine ⟨h1, h2, ?_⟩
  rw [h1, h2]
  norm_num

/-- C1 as amended: the balance index is `round((max_count - min_count) /
total_answers, 2)` where `total_answers` is the number of *submitted*
answers (recognized or not), with 1 as the denominator when the answer list
is empty. -/
theorem balance_index_amended (qlookup : String → Option Bool) (answers : List Answer) :
    (submitQuizResult qlookup answers).balance_index =
      pyRound2 (((maxScore (countScores answers) : ℚ) - (minScore (countScores answers) : ℚ)) /
        ((max answers.length 1 : Nat) : ℚ)) := by
  rw [submit_balance]
  congr 2
  have : (if answers.length = 0 then 1 else answers.length) = max answers.length 1 := by
    cases answers <;> simp
  rw [this]

/-- C4: the compatibility lookup is symmetric in its two archetype arguments
— same score and same energy label — for all 16 ordered pairs and both
languages; in particular spark/anchor gives 90, "harmonious" both ways. -/
theorem compatibility_symmetric :
    (∀ a ∈ archetypeNames, ∀ b ∈ archetypeNames, ∀ lang ∈ supportedLanguages,
      pairScore a b lang = pairScore b a lang ∧ pairEnergy a b lang = pairEnergy b a lang) ∧
    pairScore "spark" "anchor" "en" = some 90 ∧
    pairEnergy "spark" "anchor" "en" = some "harmonious" ∧
    pairScore "anchor" "spark" "en" = some 90 ∧
    pairEnergy "anchor" "spark" "en" = some "harmonious" := by decide

/-- Witness for C4 at spark/anchor in English. -/
theorem compatibility_symmetric_witness :
    pairScore "spark" "anchor" "en" = pairScore "anchor" "spark" "en" ∧
    pairEnergy "spark" "anchor" "en" = pairEnergy "anchor" "spark" "en" :=
  compatibility_symmetric.1 "spark" (by decide) "anchor" (by decide) "en" (by decide)

/-- C5: for valid archetypes the pair lookup always resolves: the
caller-order key is already in the table (so the reversed-key fallback and
the 404 branch are never needed), and the handler returns a record for both
supported languages. -/
theorem pair_lookup_total :
    ∀ a ∈ archetypeNames, ∀ b ∈ archetypeNames,
      (List.lookup (a ++ "_" ++ b) COMPATIBILITY_MATRIX).isSome = true ∧
      ∀ lang ∈ supportedLanguages, isOkE (getCompatibilityPair a b lang) = true := by decide

/-- Witness for C5 at driver/analyst. -/
theorem pair_lookup_total_witness :
    (List.lookup ("driver" ++ "_" ++ "analyst") COMPATIBILITY_MATRIX).isSome = true ∧
    isOkE (getCompatibilityPair "driver" "analyst" "id") = true :=
  ⟨(pair_lookup_total "driver" (by decide) "analyst" (by decide)).1,
   (pair_lookup_total "driver" (by decide) "analyst" (by decide)).2 "id" (by decide)⟩

/-- C9: for every valid archetype and supported language the ranking handler
returns exactly one entry per archetype (self included), each entry carrying
the pair lookup's score, sorted descending by score with ties broken by the
fixed archetype order. -/
theorem rank_for_archetype :
    ∀ a ∈ archetypeNames, ∀ lang ∈ supportedLanguages,
      isOkE (getCompatibilityForArchetype a lang) = true ∧
      List.Perm ((rankEntries a lang).map (fun e => e.with_archetype)) archetypeNames ∧
      (∀ e ∈ rankEntries a lang, pairScore a e.with_archetype lang = some e.compatibility_score) ∧
      List.Sorted rankLex (rankEntries a lang) := by decide

/-- Witness for C9 at analyst/en, where driver and anchor tie at 70. -/
theorem rank_for_archetype_witness :
    isOkE (getCompatibilityForArchetype "analyst" "en") = true ∧
    List.Perm ((rankEntries "analyst" "en").map (fun e => e.with_archetype)) archetypeNames ∧
    (∀ e ∈ rankEntries "analyst" "en",
      pairScore "analyst" e.with_archetype "en" = some e.compatibility_score) ∧
    List.Sorted rankLex (rankEntries "analyst" "en") :=
  rank_for_archetype "analyst" (by decide) "en" (by decide)


lemma lookup_mem_keys {α β : Type} [BEq α] [LawfulBEq α] {l : List (α × β)} {k : α} {e : β}
    (h : List.lookup k l = some e) : k ∈ l.map Prod.fst := by
  induction l with
  | nil => simp [List.lookup] at h
  | cons p t ih =>
    rw [List.lookup] at h
    cases hk : k == p.1 with
    | true => simp [LawfulBEq.eq_of_beq hk]
    | false =>
      rw [hk] at h
      exact List.mem_cons_of_mem _ (ih h)

lemma underscore_split : ∀ {l1 : List Char} {l2 : List Char} {m1 m2 : List Char},
    '_' ∉ l1 → '_' ∉ m1 → l1 ++ '_' :: l2 = m1 ++ '_' :: m2 → l1 = m1 ∧ l2 = m2
  | [], l2, [], m2, _, _, h => by simpa using h
  | [], l2, c :: m1, m2, _, hm1, h => by
    simp only [List.nil_append, List.cons_append, List.cons.injEq] at h
    obtain ⟨h1, _⟩ := h
    subst h1
    exact absurd (List.mem_cons_self _ _) hm1
  | c :: l1, l2, [], m2, hl1, _, h => by
    simp only [List.cons_append, List.nil_append, List.cons.injEq] at h
    obtain ⟨h1, _⟩ := h
    subst h1
    exact absurd (List.mem_cons_self _ _) hl1
  | c :: l1, l2, d :: m1, m2, hl1, hm1, h => by
    simp only [List.cons_append, List.cons.injEq] at h
    obtain ⟨rfl, h⟩ := h
    obtain ⟨h1, h2⟩ := underscore_split (fun hc => hl1 (List.mem_cons_of_mem _ hc))
      (fun hc => hm1 (List.mem_cons_of_mem _ hc)) h
    exact ⟨by rw [h1], h2⟩

lemma matrix_key_split {k : String} {e : CompatEntry}
    (h : List.lookup k COMPATIBILITY_MATRIX = some e) :
    ∃ x ∈ archetypeNames, ∃ y ∈ archetypeNames, k = x ++ "_" ++ y := by
  have hmem := lookup_mem_keys h
  simp only [COMPATIBILITY_MATRIX, List.map_cons, List.map_nil, List.mem_cons,
    List.not_mem_nil, or_false] at hmem
  rcases hmem with rfl | rfl | rfl | rfl | rfl | rfl | rfl | rfl | rfl | rfl | rfl | rfl |
    rfl | rfl | rfl | rfl <;>
    first
      | exact ⟨"driver", by decide, "driver", by decide, by decide⟩
      | exact ⟨"driver", by decide, "spark", by decide, by decide⟩
      | exact ⟨"driver", by decide, "anchor", by decide, by decide⟩
      | exact ⟨"driver", by decide, "analyst", by decide, by decide⟩
      | exact ⟨"spark", by decide, "driver", by decide, by decide⟩
      | exact ⟨"spark", by decide, "spark", by decide, by decide⟩
      | exact ⟨"spark", by decide, "anchor", by decide, by decide⟩
      | exact ⟨"spark", by decide, "analyst", by decide, by decide⟩
      | exact ⟨"anchor", by decide, "driver", by decide, by decide⟩
      | exact ⟨"anchor", by decide, "spark", by decide, by decide⟩
      | exact ⟨"anchor", by decide, "anchor", by decide, by decide⟩
      | exact ⟨"anchor", by decide, "analyst", by decide, by decide⟩
      | exact ⟨"analyst", by decide, "driver", by decide, by decide⟩
      | exact ⟨"analyst", by decide, "spark", by decide, by decide⟩
      | exact ⟨"analyst", by decide, "anchor", by decide, by decide⟩
      | exact ⟨"analyst", by decide, "analyst", by decide, by decide⟩

lemma names_no_underscore : ∀ x ∈ archetypeNames, List.count '_' x.data = 0 := by decide

lemma lookup_invalid_left {s b : String} (hs : s ∉ archetypeNames) :
    List.lookup (s ++ "_" ++ b) COMPATIBILITY_MATRIX = none := by
  cases hl : List.lookup (s ++ "_" ++ b) COMPATIBILITY_MATRIX with
  | none => rfl
  | some e =>
    exfalso
    obtain ⟨x, hx, y, hy, hk⟩ := matrix_key_split hl
    have hd : s.data ++ '_' :: b.data = x.data ++ '_' :: y.data := by
      have := congrArg String.data hk
      simpa [String.data_append] using this
    have hcx : List.count '_' x.data = 0 := names_no_underscore x hx
    have hcy : List.count '_' y.data = 0 := names_no_underscore y hy
    have hcount := congrArg (List.count '_') hd
    simp only [List.count_append, List.count_cons] at hcount
    have hns : List.count '_' s.data = 0 := by omega
    obtain ⟨h1, _⟩ := underscore_split (List.count_eq_zero.mp hns ·)
      (List.count_eq_zero.mp hcx ·) hd
    exact hs (String.ext h1 ▸ hx)

lemma lookup_invalid_right {s b : String} (hs : s ∉ archetypeNames) :
    List.lookup (b ++ "_" ++ s) COMPATIBILITY_MATRIX = none := by
  cases hl : List.lookup (b ++ "_" ++ s) COMPATIBILITY_MATRIX with
  | none => rfl
  | some e =>
    exfalso
    obtain ⟨x, hx, y, hy, hk⟩ := matrix_key_split hl
    have hd : b.data ++ '_' :: s.data = x.data ++ '_' :: y.data := by
      have := congrArg String.data hk
      simpa [String.data_append] using this
    have hcx : List.count '_' x.data = 0 := names_no_underscore x hx
    have hcy : List.count '_' y.data = 0 := names_no_underscore y hy
    have hcount := congrArg (List.count '_') hd
    simp only [List.count_append, List.count_cons] at hcount
    have hnb : List.count '_' b.data = 0 := by omega
    obtain ⟨_, h2⟩ := underscore_split (List.count_eq_zero.mp hnb ·)
      (List.count_eq_zero.mp hcx ·) hd
    exact hs (String.ext h2 ▸ hy)

/-- Counterexample to C6: for the invalid archetype name "wizard" the pair
lookup does not fail with the 400 invalid-argument error the claim requires;
it falls through to the 404 "Compatibility pair not found" branch, a
different error. -/
theorem invalid_archetype_counterexample :
    getCompatibilityPair "wizard" "driver" "en" =
      Except.error (ApiError.notFound "Compatibility pair not found") ∧
    (Except.error (ApiError.notFound "Compatibility pair not found") :
        Except ApiError PairView) ≠
      Except.error (ApiError.invalidArgument "Invalid archetype") := by
  constructor
  · decide
  · decide

/-- C6 as amended: a name whose lowercase form is not one of the four
archetypes makes `get_compatibility_for_archetype` fail immediately with the
400 invalid-argument error, while `get_compatibility_pair` fails with the
404 not-found error (its reversed-key fallback also misses). -/
theorem invalid_archetype_errors (s lang : String) (hs : pyLower s ∉ archetypeNames) :
    getCompatibilityForArchetype s lang =
      Except.error (ApiError.invalidArgument "Invalid archetype") ∧
    ∀ b : String, getCompatibilityPair s b lang =
      Except.error (ApiError.notFound "Compatibility pair not found") := by
  constructor
  · unfold getCompatibilityForArchetype
    simp [hs]
  · intro b
    unfold getCompatibilityPair
    simp only [lookup_invalid_left hs, lookup_invalid_right hs]

/-- Witness for C6 at the invalid name "wizard". -/
theorem invalid_archetype_errors_witness :
    getCompatibilityForArchetype "wizard" "en" =
      Except.error (ApiError.invalidArgument "Invalid archetype") ∧
    getCompatibilityPair "wizard" "driver" "en" =
      Except.error (ApiError.notFound "Compatibility pair not found") :=
  ⟨(invalid_archetype_errors "wizard" "en" (by decide)).1,
   (invalid_archetype_errors "wizard" "en" (by decide)).2 "driver"⟩

end Relasi
